import Mathlib

/-!
Shallow embedding of the template-management subsystem of the
`transcribe_to_gpt` repository, covering:

* `src/transcribe_to_gpt/template_manager.py` — `TemplateCategory`,
  `TemplateConfig` (with `to_dict` / `from_dict`), `TemplateManager`
  (defaults loading, custom-template loading, `save_template`,
  `get_template`, `validate_template`) and the `TranscriptionAnalyzer`
  defined in that file;
* `src/gpt_analyzer.py` — the built-in template dictionaries,
  `create_system_prompt` and `analyze_transcription_with_template`.

Python floats are modelled as rationals (`ℚ`), Python dictionaries from
strings to records as association lists with insert-overwrite semantics
(matching dict insertion order), optional / possibly-`None` values as
`Option`, raised exceptions as `Except.error`, and the on-disk template
directory as a list of per-file parse results.  Python truthiness of
strings and lists (empty is falsy) is modelled explicitly.  The remote
chat-completion call is out of scope; the embedding stops at the request
(ordered message list plus sampling parameters) handed to it.
-/

namespace TranscribeToGpt

/-! ## Python dictionary model: association lists keyed by strings -/

/-- Python `d[k] = v`: overwrite in place if the key is present (keeping its
position, as Python dicts do), otherwise append at the end. -/
def assocInsert {α : Type} (m : List (String × α)) (k : String) (v : α) :
    List (String × α) :=
  if m.any (fun p => p.1 == k) then
    m.map (fun p => if p.1 == k then (k, v) else p)
  else
    m ++ [(k, v)]

/-- Python `d.get(k)`: first (and only, for dict-shaped lists) binding. -/
def assocGet {α : Type} (m : List (String × α)) (k : String) : Option α :=
  (m.find? (fun p => p.1 == k)).map (fun p => p.2)

/-! ## `TemplateCategory` (enum) and `TemplateConfig` (dataclass) -/

/-- Embeds `class TemplateCategory(Enum)` with values
`"analysis" | "technical" | "business" | "custom"`. -/
inductive TemplateCategory : Type
  | analysis
  | technical
  | business
  | custom
deriving DecidableEq, Repr

/-- The `.value` string of each enum member. -/
def TemplateCategory.value : TemplateCategory → String
  | .analysis => "analysis"
  | .technical => "technical"
  | .business => "business"
  | .custom => "custom"

/-- Calling `TemplateCategory(s)` on a string: the member with that value, or a
`ValueError` (modelled as `none`) for an unrecognized string. -/
def categoryOfString (s : String) : Option TemplateCategory :=
  if s = "analysis" then some .analysis
  else if s = "technical" then some .technical
  else if s = "business" then some .business
  else if s = "custom" then some .custom
  else none

/-- Embeds the dataclass `TemplateConfig` from `template_manager.py`.
`temperature` (a Python float) is modelled as a rational. -/
structure TemplateConfig : Type where
  name : String
  category : TemplateCategory
  system_prompt : String
  instruction : String
  temperature : ℚ
  focus_topics : Option (List String) := none
  output_format : Option String := none
  description : Option String := none
  version : String := "1.0"
deriving DecidableEq, Repr

/-- The JSON-equivalent serialized shape of a template record: the dict
produced by `to_dict` and consumed by `from_dict` (category as a string). -/
structure TemplateDictRec : Type where
  name : String
  category : String
  system_prompt : String
  instruction : String
  temperature : ℚ
  focus_topics : Option (List String)
  output_format : Option String
  description : Option String
  version : String
deriving DecidableEq, Repr

/-- Embeds `TemplateConfig.to_dict`. -/
def TemplateConfig.to_dict (t : TemplateConfig) : TemplateDictRec :=
  { name := t.name
    category := t.category.value
    system_prompt := t.system_prompt
    instruction := t.instruction
    temperature := t.temperature
    focus_topics := t.focus_topics
    output_format := t.output_format
    description := t.description
    version := t.version }

/-- Embeds `TemplateConfig.from_dict` viewed as a pure deserializer:
`data['category'] = TemplateCategory(data['category']); return cls(**data)`.
An unrecognized category string raises `ValueError`, modelled as `none`.
(The in-place mutation of the argument dict is modelled separately below
by `fromDictPy`.) -/
def TemplateConfig.from_dict (d : TemplateDictRec) : Option TemplateConfig :=
  (categoryOfString d.category).map (fun c =>
    { name := d.name
      category := c
      system_prompt := d.system_prompt
      instruction := d.instruction
      temperature := d.temperature
      focus_topics := d.focus_topics
      output_format := d.output_format
      description := d.description
      version := d.version })

/-- The `category` cell of a Python dict passed to `from_dict`: before the
call it holds the raw string, after the call it holds the enum member that
`from_dict` wrote over it. -/
inductive CatCell : Type
  | raw (s : String)
  | member (c : TemplateCategory)
deriving DecidableEq, Repr

/-- A caller-owned Python dict as `from_dict` sees it: identical to
`TemplateDictRec` except that the `category` cell can hold either a raw
string or an enum member. -/
structure PyDict : Type where
  name : String
  category : CatCell
  system_prompt : String
  instruction : String
  temperature : ℚ
  focus_topics : Option (List String)
  output_format : Option String
  description : Option String
  version : String
deriving DecidableEq, Repr

/-- Embeds `TemplateConfig.from_dict` with its effect on the caller's dict made
explicit: `data['category'] = TemplateCategory(data['category'])` mutates
`data` in place before `cls(**data)` builds the record.  Returns the
post-call state of the argument dict together with the record; a
`ValueError` from `TemplateCategory(...)` is `none`. -/
def fromDictPy (d : PyDict) : Option (PyDict × TemplateConfig) :=
  match d.category with
  | .raw s =>
    (categoryOfString s).map (fun c =>
      ({ d with category := .member c },
       { name := d.name
         category := c
         system_prompt := d.system_prompt
         instruction := d.instruction
         temperature := d.temperature
         focus_topics := d.focus_topics
         output_format := d.output_format
         description := d.description
         version := d.version }))
  | .member c =>
    some ({ d with category := .member c },
      { name := d.name
        category := c
        system_prompt := d.system_prompt
        instruction := d.instruction
        temperature := d.temperature
        focus_topics := d.focus_topics
        output_format := d.output_format
        description := d.description
        version := d.version })

/-! ## Python truthiness and `str.isalnum` -/

/-- Python truthiness of a string: empty is falsy. -/
def pyTruthyS (s : String) : Bool := s != ""

/-- Python `str.isalnum()`: true iff the string is non-empty and every
character is alphanumeric. -/
def pyIsAlnum (s : String) : Bool :=
  (s != "") && s.toList.all Char.isAlphanum

/-- Python truthiness filter on an optional string (`None` and `""` falsy). -/
def truthyStr : Option String → Option String
  | some s => if s = "" then none else some s
  | none => none

/-- Python truthiness filter on an optional list (`None` and `[]` falsy). -/
def truthyList : Option (List String) → Option (List String)
  | some l => if l = [] then none else some l
  | none => none

/-! ## `TemplateManager.validate_template` -/

/-- Embeds `TemplateManager.validate_template`: builds the error list by three
independent checks, in source order, never short-circuiting across
checks. -/
def validate_template (t : TemplateConfig) : List String :=
  let errors : List String := []
  let errors := errors ++
    (if !pyTruthyS t.name || !pyIsAlnum t.name then
      ["Template name must be alphanumeric"] else [])
  let errors := errors ++
    (if t.temperature < 0 ∨ t.temperature > 1 then
      ["Temperature must be between 0 and 1"] else [])
  let errors := errors ++
    (if !pyTruthyS t.system_prompt || !pyTruthyS t.instruction then
      ["System prompt and instruction are required"] else [])
  errors

/-! ## `TemplateManager`: defaults, loading, saving, lookup -/

/-- The built-in `"summary"` default template. -/
def summaryDefault : TemplateConfig :=
  { name := "summary"
    category := .analysis
    system_prompt := "You are generating a transcript summary. Focus on extracting and organizing the main points while maintaining clarity and brevity."
    instruction := "Create a concise summary of the main points discussed"
    temperature := 0.3
    description := some "Creates concise summaries of transcripts" }

/-- The built-in `"technical_specs"` default template. -/
def technicalSpecsDefault : TemplateConfig :=
  { name := "technical_specs"
    category := .technical
    system_prompt := "You are a technical specification analyzer. Focus on technical details, requirements, and architectural decisions."
    instruction := "Extract technical specifications and architectural decisions"
    temperature := 0.2
    focus_topics := some ["requirements", "architecture", "technologies", "constraints"]
    output_format := some "\n# Technical Specifications\n## Requirements\n- List of functional requirements\n- List of non-functional requirements\n\n## Architecture\n- Key architectural decisions\n- System components\n- Technical constraints\n\n## Implementation Details\n- Technologies mentioned\n- Integration points\n- Performance considerations\n                "
    description := some "Analyzes technical discussions and specifications" }

/-- The literal `default_templates` dict of `_load_default_templates`, in its
insertion order. -/
def default_templates : List (String × TemplateConfig) :=
  [("summary", summaryDefault), ("technical_specs", technicalSpecsDefault)]

/-- Embeds `TemplateManager._load_default_templates`:
`self.templates.update(default_templates)`. -/
def load_default_templates (templates : List (String × TemplateConfig)) :
    List (String × TemplateConfig) :=
  default_templates.foldl (fun m p => assocInsert m p.1 p.2) templates

/-- The outcome of reading one `*.json` file from the templates directory:
`none` models a file whose contents fail to parse as JSON (or any other
read error), `some d` a file parsed into the dict `d` (whose category
string may still be unrecognized). -/
abbrev FileResult : Type := Option TemplateDictRec

/-- Embeds `TemplateManager._load_custom_templates`: for each file, parse it and
register the record under `template.name`; any exception (JSON error,
`ValueError` from an unrecognized category) is caught, logged and the file
skipped. -/
def load_custom_templates (templates : List (String × TemplateConfig))
    (files : List FileResult) : List (String × TemplateConfig) :=
  files.foldl (fun m file =>
    match file with
    | none => m
    | some d =>
      match TemplateConfig.from_dict d with
      | none => m
      | some t => assocInsert m t.name t) templates

/-- Embeds `TemplateManager.__init__`: start from an empty mapping, load the
built-in defaults, then load the custom templates found on disk. -/
def initTemplates (files : List FileResult) : List (String × TemplateConfig) :=
  load_custom_templates (load_default_templates []) files

/-- A `TemplateManager`'s state: the in-memory mapping plus the templates
directory, the latter modelled as a mapping from file stem to the dict
serialized into that file. -/
structure ManagerState : Type where
  templates : List (String × TemplateConfig)
  files : List (String × TemplateDictRec)
deriving DecidableEq, Repr

/-- Embeds `TemplateManager.save_template`: write `template.to_dict()` to
`{template.name}.json` in the templates directory, then insert/overwrite
the in-memory entry.  No validation happens here. -/
def save_template (s : ManagerState) (t : TemplateConfig) : ManagerState :=
  { files := assocInsert s.files t.name t.to_dict
    templates := assocInsert s.templates t.name t }

/-- Embeds `TemplateManager.get_template`: `self.templates.get(name)`. -/
def get_template (templates : List (String × TemplateConfig)) (name : String) :
    Option TemplateConfig :=
  assocGet templates name

/-! ## Chat messages and completion requests -/

/-- The `content` field of a chat message: either a plain string, or (as in
`gpt_analyzer.py`'s user message) a list of typed text parts, modelled by
the list of their `"text"` values. -/
inductive MsgContent : Type
  | text (s : String)
  | parts (l : List String)
deriving DecidableEq, Repr

/-- One role-tagged chat message. -/
structure Message : Type where
  role : String
  content : MsgContent
deriving DecidableEq, Repr

/-- The request handed to `client.chat.completions.create`: the ordered
message list and the sampling parameters.  The model identifier is
process-wide configuration, out of scope. -/
structure ChatRequest : Type where
  messages : List Message
  temperature : ℚ
  max_tokens : ℕ
deriving DecidableEq, Repr

/-! ## `TranscriptionAnalyzer.analyze_transcription` (template_manager.py) -/

/-- The result of a `template_manager.py` `analyze_transcription` call that
reaches the completion call: the request it sends, plus the notices printed
along the way. -/
structure TMCallOutcome : Type where
  request : ChatRequest
  notices : List String
deriving DecidableEq, Repr

/-- Embeds `TranscriptionAnalyzer.analyze_transcription` from
`template_manager.py`, up to the completion call.  The `**kwargs` of the
Python signature are modelled by the two keys an analysis caller can pass:
`temperature` (accepted but never read by this function) and `max_tokens`
(read via `kwargs.get('max_tokens', 1500)`).  A missing template falls back
to `get_template("default")` after printing a notice; if that lookup also
fails, `ValueError("Default template not found")` is raised to the caller
(modelled as `Except.error`). -/
def tm_analyze_transcription (templates : List (String × TemplateConfig))
    (transcription : String) (template_name : String)
    (custom_instructions : Option String)
    (kwargs_temperature : Option ℚ) (kwargs_max_tokens : Option ℕ) :
    Except String TMCallOutcome :=
  let resolved : Except String (TemplateConfig × List String) :=
    match get_template templates template_name with
    | some t => .ok (t, [])
    | none =>
      match get_template templates "default" with
      | some t =>
        .ok (t, ["Template '" ++ template_name ++ "' not found. Using default template."])
      | none => .error "Default template not found"
  match resolved with
  | .error e => .error e
  | .ok (template, notices) =>
    let messages : List Message :=
      [⟨"system", .text template.system_prompt⟩]
      ++ (match truthyStr custom_instructions with
          | some s => [⟨"system", .text ("Additional instructions: " ++ s)⟩]
          | none => [])
      ++ [⟨"user", .text ("The audio transcription is: " ++ transcription)⟩]
    .ok { request := { messages := messages
                       temperature := template.temperature
                       max_tokens := kwargs_max_tokens.getD 1500 }
          notices := notices }

/-! ## `gpt_analyzer.py`: built-in template dicts and prompt composition -/

/-- One entry of `self.templates` in `gpt_analyzer.py`: a plain dict whose
optional keys are absent (`none`) or present. -/
structure GTemplate : Type where
  system_prompt : String
  instruction : Option String := none
  temperature : Option ℚ := none
  focus_topics : Option (List String) := none
  output_format : Option String := none
deriving DecidableEq, Repr

/-- The `**kwargs` of `analyze_transcription_with_template`: the
template-dict keys a caller can override via `template_config.update(kwargs)`,
plus `max_tokens` which is read from `kwargs` directly. -/
structure Kwargs : Type where
  system_prompt : Option String := none
  instruction : Option String := none
  temperature : Option ℚ := none
  focus_topics : Option (List String) := none
  output_format : Option String := none
  max_tokens : Option ℕ := none
deriving DecidableEq, Repr

/-- Embeds `template_config.update(kwargs)`: every key present in `kwargs`
overwrites the corresponding key of the copied template dict. -/
def updateConfig (cfg : GTemplate) (kw : Kwargs) : GTemplate :=
  { system_prompt := kw.system_prompt.getD cfg.system_prompt
    instruction := (kw.instruction.map some).getD cfg.instruction
    temperature := (kw.temperature.map some).getD cfg.temperature
    focus_topics := (kw.focus_topics.map some).getD cfg.focus_topics
    output_format := (kw.output_format.map some).getD cfg.output_format }

/-- Embeds `TranscriptionAnalyzer.create_system_prompt` from `gpt_analyzer.py`:
collect the clauses that are truthy, in source order, and join them with
single spaces. -/
def create_system_prompt (base_prompt : String) (instruction : Option String)
    (focus_topics exclude_topics : Option (List String))
    (custom_instructions output_format : Option String) : String :=
  let system_parts : List String := [base_prompt]
  let system_parts := system_parts ++
    (match truthyStr instruction with
     | some s => ["Primary task: " ++ s]
     | none => [])
  let system_parts := system_parts ++
    (match truthyList focus_topics with
     | some l => ["Pay particular attention to these topics: " ++ String.intercalate ", " l]
     | none => [])
  let system_parts := system_parts ++
    (match truthyList exclude_topics with
     | some l => ["Minimize discussion of these topics: " ++ String.intercalate ", " l]
     | none => [])
  let system_parts := system_parts ++
    (match truthyStr custom_instructions with
     | some s => ["Additional instructions: " ++ s]
     | none => [])
  let system_parts := system_parts ++
    (match truthyStr output_format with
     | some s => ["Please format your response as follows: " ++ s]
     | none => [])
  let system_parts := system_parts ++ ["Respond in Markdown format."]
  String.intercalate " " system_parts

/-- The `self.templates` dict built by
`TranscriptionAnalyzer._initialize_templates` in `gpt_analyzer.py`. -/
def gptBuiltinTemplates : List (String × GTemplate) :=
  [ ("summary",
     { system_prompt := "You are generating a transcript summary. Focus on extracting and organizing the main points while maintaining clarity and brevity."
       instruction := some "Create a concise summary of the main points discussed"
       temperature := some 0.3 }),
    ("action_items",
     { system_prompt := "You are an action item extractor. Your primary focus is identifying and clearly presenting all tasks, commitments, and follow-up items."
       instruction := some "Extract all action items, tasks, and commitments mentioned"
       focus_topics := some ["tasks", "deadlines", "assignments", "commitments"]
       temperature := some 0.1
       output_format := some "\n# Action Items Identified\n\x7b\x7beach item should include:\n- What needs to be done\n- Who is responsible (if mentioned)\n- Due date/timeline (if mentioned)\n- Any relevant context\x7d\x7d\n                " }),
    ("sentiment",
     { system_prompt := "You are a sentiment and tone analyzer. Focus on understanding and explaining the emotional undertones and attitudes expressed."
       instruction := some "Analyze the overall tone and sentiment of the discussion"
       focus_topics := some ["emotions", "attitudes", "reactions"]
       temperature := some 0.4 }),
    ("qa",
     { system_prompt := "You are a Q&A extractor. Your role is to identify and pair questions with their corresponding answers."
       instruction := some "Extract questions asked and their answers if provided"
       focus_topics := some ["questions", "answers", "clarifications"]
       temperature := some 0.2 }),
    ("default",
     { system_prompt := "You are a transcript analyzer. Provide comprehensive analysis while maintaining clarity and structure."
       instruction := some "Provide a detailed analysis of the transcription"
       temperature := some 0.7 }) ]

/-- Embeds `TranscriptionAnalyzer.analyze_transcription_with_template` from
`gpt_analyzer.py`, up to the completion call, parameterized by the
analyzer's `self.templates` mapping.  Python evaluates the fallback
argument of `self.templates.get(template, self.templates["default"])`
eagerly, so a mapping with no `"default"` key raises `KeyError` before
anything else happens (modelled as `Except.error`). -/
def analyze_transcription_with_template (templates : List (String × GTemplate))
    (transcription : String) (template : String)
    (custom_instructions additional_context : Option String)
    (override_focus_topics override_exclude_topics : Option (List String))
    (kwargs : Kwargs) : Except String ChatRequest :=
  match assocGet templates "default" with
  | none => .error "KeyError: 'default'"
  | some dflt =>
    let template_config := (assocGet templates template).getD dflt
    let template_config := updateConfig template_config kwargs
    let focus_topics :=
      match override_focus_topics with
      | some l => some l
      | none => template_config.focus_topics
    let system_prompt :=
      create_system_prompt template_config.system_prompt template_config.instruction
        focus_topics override_exclude_topics custom_instructions
        template_config.output_format
    let messages : List Message :=
      [⟨"system", .text system_prompt⟩]
      ++ (match truthyStr additional_context with
          | some s => [⟨"system", .text ("Additional context: " ++ s)⟩]
          | none => [])
      ++ [⟨"user", .parts ["The audio transcription is: " ++ transcription]⟩]
    .ok { messages := messages
          temperature := template_config.temperature.getD 0.7
          max_tokens := kwargs.max_tokens.getD 1500 }

/-! ## Substring occurrence (for topic-mention properties) -/

/-- Whether `needle` occurs as a contiguous sublist of `hay`. -/
def listInfixB (needle : List Char) : List Char → Bool
  | [] => needle.isEmpty
  | c :: t => needle.isPrefixOf (c :: t) || listInfixB needle t

/-- Whether string `sub` occurs as a contiguous substring of `s`. -/
def mentions (s sub : String) : Bool :=
  listInfixB sub.toList s.toList

/-! ## Projections of a completion request outcome -/

/-- The temperature actually sent, when the call reaches the completion
call. -/
def sentTemperature : Except String ChatRequest → Option ℚ
  | .ok r => some r.temperature
  | .error _ => none

/-- The `max_tokens` actually sent, when the call reaches the completion
call. -/
def sentMaxTokens : Except String ChatRequest → Option ℕ
  | .ok r => some r.max_tokens
  | .error _ => none

/-- The text of the first (composed) system message of a request, `""` when
the call failed or the first message is not plain text. -/
def firstSystemText : Except String ChatRequest → String
  | .ok r =>
    match r.messages with
    | m :: _ =>
      match m.content with
      | .text s => s
      | .parts _ => ""
    | [] => ""
  | .error _ => ""

/-! ## Concrete records used to instantiate the claims -/

/-- A well-formed serialized record for a custom `"meeting1"` template. -/
def meeting1Dict : TemplateDictRec :=
  { name := "meeting1"
    category := "business"
    system_prompt := "You are a meeting minutes generator."
    instruction := "Generate structured meeting minutes"
    temperature := 0.4
    focus_topics := none
    output_format := none
    description := none
    version := "1.0" }

/-- The record `meeting1Dict` deserializes to. -/
def meeting1Config : TemplateConfig :=
  { name := "meeting1"
    category := .business
    system_prompt := "You are a meeting minutes generator."
    instruction := "Generate structured meeting minutes"
    temperature := 0.4 }

/-- A malformed serialized record: its category string is not a recognized
enumeration value, so deserialization raises `ValueError`. -/
def bogusCategoryDict : TemplateDictRec :=
  { name := "oops"
    category := "bogus"
    system_prompt := "x"
    instruction := "y"
    temperature := 0.5
    focus_topics := none
    output_format := none
    description := none
    version := "1.0" }

/-- A record violating every validation rule: empty non-alphanumeric pieces
and an out-of-range temperature. -/
def invalidConfig : TemplateConfig :=
  { name := "bad name!"
    category := .custom
    system_prompt := ""
    instruction := ""
    temperature := 2 }

/-- A caller-owned dict with a recognized category string, for the
`from_dict` mutation claim. -/
def c10Dict : PyDict :=
  { name := "meeting1"
    category := .raw "business"
    system_prompt := "You are a meeting minutes generator."
    instruction := "Generate structured meeting minutes"
    temperature := 0.4
    focus_topics := none
    output_format := none
    description := none
    version := "1.0" }

/-- The `qa` template of the spec's end-to-end example: no `focus_topics`
and no `output_format`. -/
def c3qa : GTemplate :=
  { system_prompt := "You are a Q&A extractor."
    instruction := some "Extract questions and answers"
    temperature := some 0.2 }

/-- An analyzer template mapping in which `"qa"` is the spec example's
template (shadowing the built-in entry, as a dict update would). -/
def c3Templates : List (String × GTemplate) :=
  ("qa", c3qa) :: gptBuiltinTemplates

/-- The request produced for the spec's end-to-end example. -/
def c3Request : ChatRequest :=
  { messages :=
      [⟨"system", .text "You are a Q&A extractor. Primary task: Extract questions and answers Respond in Markdown format."⟩,
       ⟨"user", .parts ["The audio transcription is: Did we ship? Yes, Tuesday."]⟩]
    temperature := 0.2
    max_tokens := 1500 }

/-- The request produced by the built-in `"summary"` template with
`additional_context = "ctx"` and transcription `"tr"`. -/
def c4Request : ChatRequest :=
  { messages :=
      [⟨"system", .text "You are generating a transcript summary. Focus on extracting and organizing the main points while maintaining clarity and brevity. Primary task: Create a concise summary of the main points discussed Respond in Markdown format."⟩,
       ⟨"system", .text "Additional context: ctx"⟩,
       ⟨"user", .parts ["The audio transcription is: tr"]⟩]
    temperature := 0.3
    max_tokens := 1500 }

/-- The composed system text of an `analyze_transcription_with_template`
call, recomputed from the same resolution steps (`none` when the mapping
has no `"default"` entry and the call dies on the eager `KeyError`). -/
def composedText (templates : List (String × GTemplate)) (template : String)
    (custom_instructions : Option String)
    (override_focus_topics override_exclude_topics : Option (List String))
    (kwargs : Kwargs) : Option String :=
  (assocGet templates "default").map (fun dflt =>
    let template_config := updateConfig ((assocGet templates template).getD dflt) kwargs
    let focus_topics :=
      match override_focus_topics with
      | some l => some l
      | none => template_config.focus_topics
    create_system_prompt template_config.system_prompt template_config.instruction
      focus_topics override_exclude_topics custom_instructions
      template_config.output_format)

/-- A template whose own `focus_topics` are `["morale"]`, for the
override-replacement claim. -/
def moraleTemplate : GTemplate :=
  { system_prompt := "You are a meeting analyzer."
    instruction := some "Summarize the meeting"
    temperature := some 0.3
    focus_topics := some ["morale"] }

/-- A two-template analyzer mapping hosting `moraleTemplate` under `"t"`. -/
def moraleTemplates : List (String × GTemplate) :=
  [("t", moraleTemplate),
   ("default",
    { system_prompt := "You are a transcript analyzer. Provide comprehensive analysis while maintaining clarity and structure."
      instruction := some "Provide a detailed analysis of the transcription"
      temperature := some 0.7 })]

/-! ## Claim theorems -/

theorem find?_map_overwrite {α : Type} (m : List (String × α)) (k : String) (v : α) :
    (m.map (fun p => if p.1 == k then (k, v) else p)).find? (fun p => p.1 == k)
      = if m.any (fun p => p.1 == k) then some (k, v) else none := by
  induction m with
  | nil => rfl
  | cons p t ih =>
    by_cases h : p.1 = k
    · have h' : (p.1 == k) = true := by simp [h]
      rw [List.map_cons, if_pos h', List.find?_cons_of_pos _ (by simp),
        List.any_cons, h', Bool.true_or, if_pos rfl]
    · have h' : (p.1 == k) = false := by simp [h]
      rw [List.map_cons, if_neg (by simp [h']), List.find?_cons_of_neg _ (by simp [h']),
        List.any_cons, h', Bool.false_or, ih]

theorem assocGet_insert_self {α : Type} (m : List (String × α)) (k : String) (v : α) :
    assocGet (assocInsert m k v) k = some v := by
  unfold assocInsert assocGet
  by_cases h : m.any (fun p => p.1 == k)
  · rw [if_pos h, find?_map_overwrite, if_pos h]
    rfl
  · rw [if_neg h]
    have hnone : m.find? (fun p => p.1 == k) = none := by
      rw [List.find?_eq_none]
      intro x hx
      by_contra hk
      exact h (List.any_eq_true.mpr ⟨x, hx, by simpa using hk⟩)
    rw [List.find?_append, hnone]
    simp [List.find?]

set_option maxHeartbeats 1600000 in
/-- C1: `validate_template T` returns an empty error list iff `T.name` is
non-empty and alphanumeric, `T.temperature` lies in `[0, 1]`, and both
`T.system_prompt` and `T.instruction` are non-empty; moreover each of the
three checks is evaluated independently (its error message is present iff
its rule is violated, regardless of the other checks), and validation is a
pure function of the record — it mutates neither the record nor the
store. -/
theorem c1_validate_template_iff (t : TemplateConfig) :
    (validate_template t = [] ↔
      (t.name ≠ "" ∧ (∀ c ∈ t.name.toList, c.isAlphanum = true) ∧
        0 ≤ t.temperature ∧ t.temperature ≤ 1 ∧
        t.system_prompt ≠ "" ∧ t.instruction ≠ "")) ∧
    (("Template name must be alphanumeric" ∈ validate_template t) ↔
      ¬ (t.name ≠ "" ∧ ∀ c ∈ t.name.toList, c.isAlphanum = true)) ∧
    (("Temperature must be between 0 and 1" ∈ validate_template t) ↔
      (t.temperature < 0 ∨ 1 < t.temperature)) ∧
    (("System prompt and instruction are required" ∈ validate_template t) ↔
      (t.system_prompt = "" ∨ t.instruction = "")) := by
  have hc1 : ((!pyTruthyS t.name || !pyIsAlnum t.name) = true) ↔
      ¬ (t.name ≠ "" ∧ ∀ c ∈ t.name.toList, c.isAlphanum = true) := by
    simp [pyTruthyS, pyIsAlnum, List.all_eq_true]
    tauto
  have hc3 : ((!pyTruthyS t.system_prompt || !pyTruthyS t.instruction) = true) ↔
      (t.system_prompt = "" ∨ t.instruction = "") := by
    simp [pyTruthyS]
  have m0 : validate_template t = [] ↔
      (¬ ((!pyTruthyS t.name || !pyIsAlnum t.name) = true) ∧
       ¬ (t.temperature < 0 ∨ t.temperature > 1) ∧
       ¬ ((!pyTruthyS t.system_prompt || !pyTruthyS t.instruction) = true)) := by
    by_cases h1 : (!pyTruthyS t.name || !pyIsAlnum t.name) = true <;>
    by_cases h2 : (t.temperature < 0 ∨ t.temperature > 1) <;>
    by_cases h3 : (!pyTruthyS t.system_prompt || !pyTruthyS t.instruction) = true <;>
      simp [validate_template, h1, h2, h3]
  have m1 : (("Template name must be alphanumeric" ∈ validate_template t)) ↔
      ((!pyTruthyS t.name || !pyIsAlnum t.name) = true) := by
    by_cases h1 : (!pyTruthyS t.name || !pyIsAlnum t.name) = true <;>
    by_cases h2 : (t.temperature < 0 ∨ t.temperature > 1) <;>
    by_cases h3 : (!pyTruthyS t.system_prompt || !pyTruthyS t.instruction) = true <;>
      simp [validate_template, h1, h2, h3]
  have m2 : (("Temperature must be between 0 and 1" ∈ validate_template t)) ↔
      (t.temperature < 0 ∨ t.temperature > 1) := by
    by_cases h1 : (!pyTruthyS t.name || !pyIsAlnum t.name) = true <;>
    by_cases h2 : (t.temperature < 0 ∨ t.temperature > 1) <;>
    by_cases h3 : (!pyTruthyS t.system_prompt || !pyTruthyS t.instruction) = true <;>
      simp [validate_template, h1, h2, h3]
  have m3 : (("System prompt and instruction are required" ∈ validate_template t)) ↔
      ((!pyTruthyS t.system_prompt || !pyTruthyS t.instruction) = true) := by
    by_cases h1 : (!pyTruthyS t.name || !pyIsAlnum t.name) = true <;>
    by_cases h2 : (t.temperature < 0 ∨ t.temperature > 1) <;>
    by_cases h3 : (!pyTruthyS t.system_prompt || !pyTruthyS t.instruction) = true <;>
      simp [validate_template, h1, h2, h3]
  refine ⟨?_, ?_, ?_, ?_⟩
  · rw [m0, hc1, hc3]
    simp only [not_or, not_not, not_lt, gt_iff_lt]
    tauto
  · rw [m1, hc1]
  · exact m2
  · rw [m3, hc3]

/-- C6: for every template record `T`, `from_dict (to_dict T) = T`
(serialization round-trip law); `save_template T` followed by
`get_template T.name` returns a record equal to `T`; and the round trip
still holds after the store is re-initialized and reloads `T` from the
storage written by the save.  This holds for all records, in particular
every valid one. -/
theorem c6_save_get_roundtrip (T : TemplateConfig) (s : ManagerState) :
    TemplateConfig.from_dict T.to_dict = some T ∧
    get_template (save_template s T).templates T.name = some T ∧
    get_template (initTemplates [some T.to_dict]) T.name = some T := by
  have hrt : TemplateConfig.from_dict T.to_dict = some T := by
    cases T with
    | mk name category system_prompt instruction temperature focus_topics
        output_format description version =>
      cases category <;> rfl
  refine ⟨hrt, ?_, ?_⟩
  · exact assocGet_insert_self s.templates T.name T
  · show assocGet (load_custom_templates (load_default_templates []) [some T.to_dict]) T.name
      = some T
    simp only [load_custom_templates, List.foldl_cons, List.foldl_nil, hrt]
    exact assocGet_insert_self _ T.name T

/-- C7: store initialization loads the built-in defaults first and then
every persisted record, a later parseable record overwriting any earlier
entry (in particular a default) of the same name; a file that fails to
parse, or parses to an unrecognized category, is skipped without aborting
initialization; and a directory holding one well-formed and one malformed
record yields exactly one entry beyond the two defaults. -/
theorem c7_init_loading :
    (∀ (files : List FileResult) (d : TemplateDictRec) (t : TemplateConfig),
        TemplateConfig.from_dict d = some t →
        get_template (initTemplates (files ++ [some d])) t.name = some t) ∧
    (∀ (m : List (String × TemplateConfig)) (files : List FileResult),
        load_custom_templates m ((none : FileResult) :: files) =
          load_custom_templates m files) ∧
    (∀ (m : List (String × TemplateConfig)) (files : List FileResult)
        (d : TemplateDictRec),
        TemplateConfig.from_dict d = none →
        load_custom_templates m (some d :: files) = load_custom_templates m files) ∧
    (initTemplates []).length = 2 ∧
    (initTemplates [some meeting1Dict, some bogusCategoryDict]).length = 3 ∧
    get_template (initTemplates [some meeting1Dict, some bogusCategoryDict]) "meeting1"
      = some meeting1Config := by
  refine ⟨?_, ?_, ?_, rfl, rfl, rfl⟩
  · intro files d t hd
    show assocGet (load_custom_templates (load_default_templates []) (files ++ [some d]))
        t.name = some t
    rw [load_custom_templates, List.foldl_append]
    simp only [List.foldl_cons, List.foldl_nil, hd]
    exact assocGet_insert_self _ t.name t
  · intro m files
    rfl
  · intro m files d hd
    show List.foldl _ _ (some d :: files) = _
    simp only [List.foldl_cons, hd]
    rfl

/-- C7 witness: instantiating the overwrite property at a concrete record
whose name collides with the `"summary"` default. -/
theorem c7_init_loading_witness :
    TemplateConfig.from_dict meeting1Dict = some meeting1Config ∧
    get_template (initTemplates ([] ++ [some meeting1Dict])) "meeting1"
      = some meeting1Config ∧
    TemplateConfig.from_dict bogusCategoryDict = none ∧
    load_custom_templates (initTemplates []) [some bogusCategoryDict] =
      load_custom_templates (initTemplates []) [] :=
  ⟨rfl, c7_init_loading.1 [] meeting1Dict meeting1Config rfl, rfl,
    c7_init_loading.2.2.1 (initTemplates []) [] bogusCategoryDict rfl⟩

/-- C8: the claim says a lookup miss is non-fatal and substitutes the
built-in `"default"` template, but `_load_default_templates` registers only
`"summary"` and `"technical_specs"`; on a fresh store, the fallback lookup
therefore also misses, and `analyze_transcription` — right after printing
"Using default template." — raises `ValueError("Default template not
found")` to the caller instead of proceeding to composition. -/
theorem c8_lookup_miss_raises :
    tm_analyze_transcription (initTemplates []) "hello" "missing" none none none
      = .error "Default template not found" ∧
    get_template (initTemplates []) "default" = none ∧
    (initTemplates []).map Prod.fst = ["summary", "technical_specs"] :=
  ⟨rfl, rfl, rfl⟩

/-- C9: `save_template T` writes the serialized record under the file stem
`T.name` and inserts/overwrites the in-memory entry for `T.name`, for
every record `T` — including records that fail validation, since
`save_template` never calls `validate_template`; a subsequent
`get_template T.name` returns exactly the new record, none of any old
one's fields. -/
theorem c9_save_unconditional (s : ManagerState) (T : TemplateConfig) :
    assocGet (save_template s T).files T.name = some T.to_dict ∧
    get_template (save_template s T).templates T.name = some T :=
  ⟨assocGet_insert_self s.files T.name T.to_dict,
   assocGet_insert_self s.templates T.name T⟩

/-- C10: `from_dict` on a dict whose category entry is a recognized
category string replaces that entry with the enumeration member in place,
so after deserialization the caller's dictionary no longer equals its
original value. -/
theorem c10_from_dict_mutates (d : PyDict) (s : String) (c : TemplateCategory)
    (hraw : d.category = .raw s) (hc : categoryOfString s = some c) :
    fromDictPy d = some ({ d with category := .member c },
      { name := d.name
        category := c
        system_prompt := d.system_prompt
        instruction := d.instruction
        temperature := d.temperature
        focus_topics := d.focus_topics
        output_format := d.output_format
        description := d.description
        version := d.version }) ∧
    ({ d with category := .member c } : PyDict) ≠ d := by
  constructor
  · rw [fromDictPy, hraw]
    simp [hc]
  · intro h
    have hcat := congrArg PyDict.category h
    rw [hraw] at hcat
    simp at hcat

/-- C10 witness: the mutation at a concrete dict with category
`"business"`. -/
theorem c10_from_dict_mutates_witness :
    c10Dict.category = .raw "business" ∧
    categoryOfString "business" = some .business ∧
    fromDictPy c10Dict = some ({ c10Dict with category := .member .business },
      meeting1Config) ∧
    ({ c10Dict with category := .member .business } : PyDict) ≠ c10Dict := by
  have h := c10_from_dict_mutates c10Dict "business" .business rfl rfl
  exact ⟨rfl, rfl, h.1, h.2⟩

/-- C2 counterexample: in `analyze_transcription_with_template`
(`gpt_analyzer.py`), `template_config.update(kwargs)` merges a run-time
`temperature` keyword over the template's stored value, so with the `"qa"`
template (stored temperature 0.2) and a keyword override 0.9, the
temperature actually sent is 0.9, not the template's 0.2 — the claim that
the template's own value is always the one sent is false. -/
theorem c2_counterexample :
    sentTemperature (analyze_transcription_with_template gptBuiltinTemplates
      "t" "qa" none none none none { temperature := some 0.9 }) = some 0.9 ∧
    (assocGet gptBuiltinTemplates "qa").map GTemplate.temperature
      = some (some 0.2) ∧
    (0.9 : ℚ) ≠ 0.2 :=
  ⟨rfl, rfl, by norm_num⟩

/-- C2 (amended): in `analyze_transcription_with_template`
(`gpt_analyzer.py`) a `temperature` keyword override is merged over the
template and is the value actually sent, while in `analyze_transcription`
(`template_manager.py`) a `temperature` keyword is accepted but ignored and
the template's stored value is sent; in both, the `max_tokens` sent is the
keyword override or 1500 when none is supplied. -/
theorem c2_temperature_and_max_tokens :
    (∀ (templates : List (String × GTemplate)) (tr tp : String)
        (ci ac : Option String) (ofc oec : Option (List String))
        (kw : Kwargs) (v : ℚ),
        kw.temperature = some v →
        (assocGet templates "default").isSome = true →
        sentTemperature (analyze_transcription_with_template templates tr tp
          ci ac ofc oec kw) = some v) ∧
    (∀ (templates : List (String × GTemplate)) (tr tp : String)
        (ci ac : Option String) (ofc oec : Option (List String)) (kw : Kwargs),
        (assocGet templates "default").isSome = true →
        sentMaxTokens (analyze_transcription_with_template templates tr tp
          ci ac ofc oec kw) = some (kw.max_tokens.getD 1500)) ∧
    (∀ (store : List (String × TemplateConfig)) (tr nm : String)
        (ci : Option String) (kwT kwT' : Option ℚ) (kwM : Option ℕ),
        tm_analyze_transcription store tr nm ci kwT kwM =
          tm_analyze_transcription store tr nm ci kwT' kwM) ∧
    (∀ (store : List (String × TemplateConfig)) (tr nm : String)
        (ci : Option String) (kwT : Option ℚ) (kwM : Option ℕ)
        (t : TemplateConfig),
        get_template store nm = some t →
        (tm_analyze_transcription store tr nm ci kwT kwM).map
            (fun o => (o.request.temperature, o.request.max_tokens))
          = .ok (t.temperature, kwM.getD 1500)) := by
  refine ⟨?_, ?_, ?_, ?_⟩
  · intro templates tr tp ci ac ofc oec kw v hkw hd
    rcases Option.isSome_iff_exists.mp hd with ⟨dflt, hdflt⟩
    simp [analyze_transcription_with_template, hdflt, sentTemperature,
      updateConfig, hkw]
  · intro templates tr tp ci ac ofc oec kw hd
    rcases Option.isSome_iff_exists.mp hd with ⟨dflt, hdflt⟩
    simp [analyze_transcription_with_template, hdflt, sentMaxTokens]
  · intro store tr nm ci kwT kwT' kwM
    rfl
  · intro store tr nm ci kwT kwM t ht
    simp [tm_analyze_transcription, get_template] at ht ⊢
    simp [ht]
    rfl

/-- C2 witness: concrete calls exercising each hypothesis — the override
0.9 over the built-in `"qa"` template and a `max_tokens` override of 42, and
a `template_manager` call on the `"summary"` default with an ignored
temperature keyword. -/
theorem c2_temperature_and_max_tokens_witness :
    ({ temperature := some 0.9 } : Kwargs).temperature = some (0.9 : ℚ) ∧
    sentTemperature (analyze_transcription_with_template gptBuiltinTemplates
      "t" "qa" none none none none { temperature := some 0.9 }) = some 0.9 ∧
    sentMaxTokens (analyze_transcription_with_template gptBuiltinTemplates
      "t" "qa" none none none none { max_tokens := some 42 }) = some 42 ∧
    get_template (initTemplates []) "summary" = some summaryDefault ∧
    (tm_analyze_transcription (initTemplates []) "t" "summary" none
        (some 0.9) none).map
        (fun o => (o.request.temperature, o.request.max_tokens))
      = .ok (summaryDefault.temperature, 1500) := by
  refine ⟨rfl, ?_, ?_, rfl, ?_⟩
  · exact c2_temperature_and_max_tokens.1 gptBuiltinTemplates "t" "qa"
      none none none none { temperature := some 0.9 } 0.9 rfl rfl
  · exact c2_temperature_and_max_tokens.2.1 gptBuiltinTemplates "t" "qa"
      none none none none { max_tokens := some 42 } rfl
  · exact c2_temperature_and_max_tokens.2.2.2 (initTemplates []) "t" "summary"
      none (some 0.9) none summaryDefault rfl

/-- C3 counterexample: in the spec's end-to-end example the user message
does not carry the transcription verbatim — its text is prefixed with
"The audio transcription is: " — so the claim as stated is false. -/
theorem c3_counterexample :
    (analyze_transcription_with_template c3Templates "Did we ship? Yes, Tuesday."
        "qa" none none none none {}).map (fun r => r.messages.getLast?)
      = .ok (some ⟨"user",
          .parts ["The audio transcription is: Did we ship? Yes, Tuesday."]⟩) ∧
    MsgContent.parts ["The audio transcription is: Did we ship? Yes, Tuesday."]
      ≠ .parts ["Did we ship? Yes, Tuesday."] :=
  ⟨rfl, by decide⟩

/-- C3 (amended): for the example template the composed system text is
exactly the base prompt, the line "Primary task: Extract questions and
answers" and the trailing "Respond in Markdown format." directive, joined
by single spaces with no focus, exclude or format clauses; the sampling
parameters sent are temperature 0.2 and `max_tokens` 1500; but the user
message carries "The audio transcription is: " followed by the
transcription, not the transcription verbatim. -/
theorem c3_example_composition :
    analyze_transcription_with_template c3Templates "Did we ship? Yes, Tuesday."
        "qa" none none none none {} = .ok c3Request ∧
    c3Request.messages.headD ⟨"", .text ""⟩ =
      ⟨"system", .text ("You are a Q&A extractor." ++ " " ++
        "Primary task: Extract questions and answers" ++ " " ++
        "Respond in Markdown format.")⟩ ∧
    mentions (firstSystemText (.ok c3Request)) "Pay particular attention" = false ∧
    mentions (firstSystemText (.ok c3Request)) "Minimize discussion" = false ∧
    mentions (firstSystemText (.ok c3Request)) "format your response as follows" = false :=
  ⟨rfl, rfl, by decide, by decide, by decide⟩

/-- C4 counterexample: the optional context system message does not carry
`additional_context` verbatim — the code sends
`f"Additional context: {additional_context}"` — so the claim as stated is
false. -/
theorem c4_counterexample :
    (analyze_transcription_with_template gptBuiltinTemplates "tr" "summary"
        none (some "The call was recorded.") none none {}).map
        (fun r => r.messages.get? 1)
      = .ok (some ⟨"system", .text "Additional context: The call was recorded."⟩) ∧
    ("Additional context: The call was recorded." ≠ "The call was recorded.") :=
  ⟨rfl, by decide⟩

/-- C4 (amended): every request emitted by
`analyze_transcription_with_template` consists of exactly one system
message holding the composed system text; then, iff `additional_context`
is truthy (present and non-empty), exactly one system message whose
content is "Additional context: " followed by `additional_context`,
immediately after the composed system message and before the user message;
then exactly one user message carrying the transcription (prefixed with
"The audio transcription is: "); and nothing else. -/
theorem c4_message_order (templates : List (String × GTemplate)) (tr tp : String)
    (ci ac : Option String) (ofc oec : Option (List String)) (kw : Kwargs)
    (req : ChatRequest)
    (h : analyze_transcription_with_template templates tr tp ci ac ofc oec kw
      = .ok req) :
    req.messages =
      [⟨"system", .text ((composedText templates tp ci ofc oec kw).getD "")⟩]
      ++ (match truthyStr ac with
          | some s => [⟨"system", .text ("Additional context: " ++ s)⟩]
          | none => [])
      ++ [⟨"user", .parts ["The audio transcription is: " ++ tr]⟩] := by
  cases hdflt : assocGet templates "default" with
  | none =>
    rw [analyze_transcription_with_template, hdflt] at h
    exact absurd h (by simp)
  | some dflt =>
    rw [analyze_transcription_with_template, hdflt] at h
    simp only [Except.ok.injEq] at h
    subst h
    simp [composedText, hdflt]

/-- C4 witness: the message order at a concrete call with
`additional_context = "ctx"`. -/
theorem c4_message_order_witness :
    c4Request.messages =
      [⟨"system", .text ((composedText gptBuiltinTemplates "summary" none none
          none {}).getD "")⟩,
       ⟨"system", .text "Additional context: ctx"⟩,
       ⟨"user", .parts ["The audio transcription is: tr"]⟩] := by
  have h := c4_message_order gptBuiltinTemplates "tr" "summary" none (some "ctx")
    none none {} c4Request rfl
  simpa using h

/-- C5: when `override_focus_topics` is provided it entirely replaces the
template's own `focus_topics` for the call — the emitted request is
invariant under changing the template's stored `focus_topics` — and in the
concrete instance with override `["budget", "risk"]` over a template whose
own topics are `["morale"]`, the composed system text mentions "budget"
and "risk" and does not mention "morale". -/
theorem c5_override_focus_topics_replaces :
    (∀ (g d : GTemplate) (f : Option (List String)) (tr : String)
        (ci ac : Option String) (oec : Option (List String)) (kw : Kwargs)
        (l : List String),
        analyze_transcription_with_template [("t", g), ("default", d)] tr "t"
          ci ac (some l) oec kw
        = analyze_transcription_with_template
            [("t", { g with focus_topics := f }), ("default", d)] tr "t"
            ci ac (some l) oec kw) ∧
    mentions (firstSystemText (analyze_transcription_with_template
        moraleTemplates "tr" "t" none none (some ["budget", "risk"]) none {}))
      "budget" = true ∧
    mentions (firstSystemText (analyze_transcription_with_template
        moraleTemplates "tr" "t" none none (some ["budget", "risk"]) none {}))
      "risk" = true ∧
    mentions (firstSystemText (analyze_transcription_with_template
        moraleTemplates "tr" "t" none none (some ["budget", "risk"]) none {}))
      "morale" = false := by
  refine ⟨?_, by decide, by decide, by decide⟩
  intro g d f tr ci ac oec kw l
  rfl

end TranscribeToGpt
